import Mathlib

/-!
Shallow embedding of the notify-go multi-backend notification dispatcher
(`notify.go`).  The dispatcher (`Notify`) holds an injected HTTP client and an
ordered list of backend bindings; `Notify.Send` normalizes a message (string or
list of strings joined by newline) and fans it out to every binding, collecting
per-binding errors into one joined error; `Notify.SendRaw` fans an arbitrary
structured payload out through every binding's raw operation, threading the
shared mutable payload map from binding to binding exactly as Go's reference
semantics for `map[string]interface{}` does.

Backends are the `telegram`, `line` and `discord` types of the source plus a
`discordWebhook` binding modelled from the spec (the README registers it but
its implementation is not among the source files).

The HTTP client is modelled as a function from a request to `Option Nat`:
`none` is a transport error (client.Do failing), `some code` is a response
with that status code.  JSON marshalling of the payload values representable
here never fails in Go, so `EncodingError`/`RequestConstructionError` paths
are unreachable in the embedding, matching the source for these value shapes.
-/

namespace NotifyGo

/-- JSON-like values: the image of the Go `interface{}` payload values under
`encoding/json` marshalling, as far as this code builds them. -/
inductive Json where
  | str : String → Json
  | num : Int → Json
  | obj : List (String × Json) → Json
  | arr : List Json → Json

/-- A Go `map[string]interface{}` payload, modelled as an association list
with unique keys. -/
abbrev RawMsg := List (String × Json)

/-- Go map read `v, ok := m[k]` (first matching key). -/
def mapLookup : RawMsg → String → Option Json
  | [], _ => none
  | (k1, v) :: rest, k => if k1 = k then some v else mapLookup rest k

/-- An outbound HTTP request exactly as the source builds it: method, URL,
headers in the order they are set, and the marshalled JSON body. -/
structure HttpRequest where
  method : String
  url : String
  headers : List (String × String)
  body : Json

/-- The injected HTTP client (`*http.Client`): `none` models `client.Do`
returning a transport error, `some code` a response with that status code. -/
def Client := HttpRequest → Option Nat

/-- Errors produced by the package: the invalid-message error of
`Notify.Send`, per-backend transport failures (`failed to send request`),
per-backend status failures (`... API responded with status`), and the
`errors.Join` aggregate. -/
inductive NotifyError where
  | invalidMessage
  | transport (api : String)
  | status (api : String) (code : Nat)
  | joined (errs : List NotifyError)

/-- The response-classification tail shared verbatim by `telegram.Send`,
`telegram.SendRaw`, `line.Send`, `line.SendRaw`, `discord.Send` and
`discord.SendRaw`: transport error is wrapped, any status other than
`http.StatusOK` (200) becomes a status error, 200 is success. -/
def doRequest (client : Client) (req : HttpRequest) (api : String) : Option NotifyError :=
  match client req with
  | none => some (NotifyError.transport api)
  | some code => if code = 200 then none else some (NotifyError.status api code)

/-- Modelled from the spec: the response classification of the HTTP call
helper for the webhook binding, whose implementation is not among the source
files — HTTP 200 or 204 is success, any other status is a status failure. -/
def doRequestWebhook (client : Client) (req : HttpRequest) : Option NotifyError :=
  match client req with
  | none => some (NotifyError.transport "webhook")
  | some code =>
      if code = 200 ∨ code = 204 then none else some (NotifyError.status "webhook" code)

/-- One backend binding (an `INotify` value): the `telegram`, `line` and
`discord` structs of the source, with their mutable per-send fields
(`telegram.Text`, `line.Messages`, `discord.Content`), plus the
`discordWebhook` binding modelled from the spec (README registers
`DiscordWebhook(WebhookUrl)`; the spec describes it as addressed purely by
URL with no auth header). -/
inductive Binding where
  | telegram (botToken chatID text : String)
  | line (botToken chatID : String) (messages : List Json)
  | discord (botToken chatID content : String)
  | discordWebhook (url : String)

/-- Result of one binding's text-send: the updated binding state, the
outbound requests it issued, and its error (none = success). -/
structure SendResult where
  st : Binding
  reqs : List HttpRequest
  res : Option NotifyError

/-- Result of one binding's raw-send: additionally carries the shared payload
map as left by this binding (Go passes the same map reference on, so a
mutation such as `message["chat_id"] = t.ChatID` is seen by later bindings). -/
structure SendRawResult where
  st : Binding
  msgOut : RawMsg
  reqs : List HttpRequest
  res : Option NotifyError

/-- The `{type:"text", text: message}` object `line.Send` appends. -/
def lineText (message : String) : Json :=
  Json.obj [("type", Json.str "text"), ("text", Json.str message)]

/-- Dynamic dispatch of `INotify.Send(client, message)` to the backend's
method: `telegram.Send` (sets `Text`, marshals `{chat_id, text}`, POSTs to the
bot URL with Content-Type only), `line.Send` (appends a text object to
`Messages`, marshals `{to, messages}`, POSTs with Content-Type and Bearer
auth), `discord.Send` (sets `Content`, marshals `{content}`, POSTs to the
channel URL with Content-Type and Bot auth); `discordWebhook` is modelled
from the spec (`{content}` to the configured URL, no auth header). -/
def Binding.Send (client : Client) (message : String) : Binding → SendResult
  | Binding.telegram botToken chatID _text =>
      let req : HttpRequest :=
        { method := "POST"
          url := "https://api.telegram.org/bot" ++ botToken ++ "/sendMessage"
          headers := [("Content-Type", "application/json")]
          body := Json.obj [("chat_id", Json.str chatID), ("text", Json.str message)] }
      ⟨Binding.telegram botToken chatID message, [req], doRequest client req "telegram"⟩
  | Binding.line botToken chatID messages =>
      let msgs := messages ++ [lineText message]
      let req : HttpRequest :=
        { method := "POST"
          url := "https://api.line.me/v2/bot/message/push"
          headers := [("Content-Type", "application/json"),
                      ("Authorization", "Bearer " ++ botToken)]
          body := Json.obj [("to", Json.str chatID), ("messages", Json.arr msgs)] }
      ⟨Binding.line botToken chatID msgs, [req], doRequest client req "LINE"⟩
  | Binding.discord botToken chatID _content =>
      let req : HttpRequest :=
        { method := "POST"
          url := "https://discord.com/api/v10/channels/" ++ chatID ++ "/messages"
          headers := [("Content-Type", "application/json"),
                      ("Authorization", "Bot " ++ botToken)]
          body := Json.obj [("content", Json.str message)] }
      ⟨Binding.discord botToken chatID message, [req], doRequest client req "Discord"⟩
  | Binding.discordWebhook url =>
      let req : HttpRequest :=
        { method := "POST"
          url := url
          headers := [("Content-Type", "application/json")]
          body := Json.obj [("content", Json.str message)] }
      ⟨Binding.discordWebhook url, [req], doRequestWebhook client req⟩

/-- Dynamic dispatch of `INotify.SendRaw(client, message)`: `telegram.SendRaw`
first mutates the shared map (`message["chat_id"] = t.ChatID` when the key is
absent) and marshals the map itself; `line.SendRaw` appends the payload to
`Messages` and marshals the `{to, messages}` envelope; `discord.SendRaw`
marshals the payload as-is; `discordWebhook` is modelled from the spec
(payload as-is to the configured URL, no auth header). -/
def Binding.SendRaw (client : Client) (message : RawMsg) : Binding → SendRawResult
  | Binding.telegram botToken chatID text =>
      let message :=
        match mapLookup message "chat_id" with
        | some _ => message
        | none => message ++ [("chat_id", Json.str chatID)]
      let req : HttpRequest :=
        { method := "POST"
          url := "https://api.telegram.org/bot" ++ botToken ++ "/sendMessage"
          headers := [("Content-Type", "application/json")]
          body := Json.obj message }
      ⟨Binding.telegram botToken chatID text, message, [req], doRequest client req "telegram"⟩
  | Binding.line botToken chatID messages =>
      let msgs := messages ++ [Json.obj message]
      let req : HttpRequest :=
        { method := "POST"
          url := "https://api.line.me/v2/bot/message/push"
          headers := [("Content-Type", "application/json"),
                      ("Authorization", "Bearer " ++ botToken)]
          body := Json.obj [("to", Json.str chatID), ("messages", Json.arr msgs)] }
      ⟨Binding.line botToken chatID msgs, message, [req], doRequest client req "LINE"⟩
  | Binding.discord botToken chatID content =>
      let req : HttpRequest :=
        { method := "POST"
          url := "https://discord.com/api/v10/channels/" ++ chatID ++ "/messages"
          headers := [("Content-Type", "application/json"),
                      ("Authorization", "Bot " ++ botToken)]
          body := Json.obj message }
      ⟨Binding.discord botToken chatID content, message, [req], doRequest client req "Discord"⟩
  | Binding.discordWebhook url =>
      let req : HttpRequest :=
        { method := "POST"
          url := url
          headers := [("Content-Type", "application/json")]
          body := Json.obj message }
      ⟨Binding.discordWebhook url, message, [req], doRequestWebhook client req⟩

/-- The API name each binding's error messages use. -/
def Binding.api : Binding → String
  | Binding.telegram _ _ _ => "telegram"
  | Binding.line _ _ _ => "LINE"
  | Binding.discord _ _ _ => "Discord"
  | Binding.discordWebhook _ => "webhook"

/-- Whether the binding is the spec-modelled webhook (not in the source). -/
def Binding.isWebhook : Binding → Bool
  | Binding.discordWebhook _ => true
  | _ => false

/-- Aggregate outcome of the fan-out loop in `Notify.Send`. -/
structure LoopResult where
  bindings : List Binding
  reqs : List HttpRequest
  errs : List NotifyError

/-- The loop body of `Notify.Send`: call each binding's `Send` in
registration order, collect (never short-circuit) its error if any. -/
def sendLoop (client : Client) (message : String) : List Binding → LoopResult
  | [] => ⟨[], [], []⟩
  | b :: rest =>
      let o := Binding.Send client message b
      let r := sendLoop client message rest
      ⟨o.st :: r.bindings, o.reqs ++ r.reqs, o.res.toList ++ r.errs⟩

/-- Aggregate outcome of the fan-out loop in `Notify.SendRaw`: also exposes
the shared payload map as left after all bindings ran. -/
structure RawLoopResult where
  bindings : List Binding
  msgOut : RawMsg
  reqs : List HttpRequest
  errs : List NotifyError

/-- The loop body of `Notify.SendRaw`: call each binding's `SendRaw` in
registration order, threading the shared payload map (Go passes the same map
reference to every binding), collecting errors without short-circuit. -/
def sendRawLoop (client : Client) : List Binding → RawMsg → RawLoopResult
  | [], m => ⟨[], m, [], []⟩
  | b :: rest, m =>
      let o := Binding.SendRaw client m b
      let r := sendRawLoop client rest o.msgOut
      ⟨o.st :: r.bindings, r.msgOut, o.reqs ++ r.reqs, o.res.toList ++ r.errs⟩

/-- The message argument of `Notify.Send` (`interface{}`): the shapes the
type switch distinguishes, plus a structured payload and a number standing
for the shapes that fall to the `default` branch. -/
inductive Msg where
  | str : String → Msg
  | list : List String → Msg
  | raw : RawMsg → Msg
  | int : Int → Msg

/-- The type switch at the top of `Notify.Send`: a `[]string` is joined with
newline, a `string` passes through, anything else is the invalid-message
error (`none`). -/
def normalize : Msg → Option String
  | Msg.list v => some (String.intercalate "\n" v)
  | Msg.str v => some v
  | _ => none

/-- The dispatcher struct: injected client, token/chat fields, and the
ordered list of registered bindings. -/
structure Notify where
  client : Client
  botToken : String
  chatID : String
  notify : List Binding

/-- Builder `Notify.Telegram`: appends a telegram binding. -/
def Notify.Telegram (n : Notify) (botToken chatId : String) : Notify :=
  { n with notify := n.notify ++ [Binding.telegram botToken chatId ""] }

/-- Builder `Notify.Line`: appends a line binding. -/
def Notify.Line (n : Notify) (botToken chatId : String) : Notify :=
  { n with notify := n.notify ++ [Binding.line botToken chatId []] }

/-- Builder `Notify.Discord`: appends a discord binding. -/
def Notify.Discord (n : Notify) (botToken channelID : String) : Notify :=
  { n with notify := n.notify ++ [Binding.discord botToken channelID ""] }

/-- Modelled from the spec: builder `Notify.DiscordWebhook` registering the
webhook binding the README chains (`DiscordWebhook(WebhookUrl)`), whose
implementation is not among the source files. -/
def Notify.DiscordWebhook (n : Notify) (webhookUrl : String) : Notify :=
  { n with notify := n.notify ++ [Binding.discordWebhook webhookUrl] }

/-- Outcome of `Notify.Send`: updated binding states, every outbound request
in the order issued, and the returned error (`none` = nil). -/
structure DispatchResult where
  bindings : List Binding
  reqs : List HttpRequest
  result : Option NotifyError

/-- `Notify.Send`: normalize via the type switch; on the `default` branch
return the invalid-message error with no binding invoked; otherwise run the
fan-out loop and return `errors.Join` of the collected errors when there are
any, nil otherwise. -/
def Notify.Send (n : Notify) (message : Msg) : DispatchResult :=
  match normalize message with
  | none => ⟨n.notify, [], some NotifyError.invalidMessage⟩
  | some newMessage =>
      let r := sendLoop n.client newMessage n.notify
      ⟨r.bindings, r.reqs,
        if r.errs.isEmpty then none else some (NotifyError.joined r.errs)⟩

/-- Outcome of `Notify.SendRaw`: also exposes the caller's payload map as it
stands after the call (the code mutates it in place). -/
structure DispatchRawResult where
  bindings : List Binding
  msgOut : RawMsg
  reqs : List HttpRequest
  result : Option NotifyError

/-- `Notify.SendRaw`: run every binding's raw operation in registration
order on the shared payload map and return `errors.Join` of the collected
errors when there are any, nil otherwise. -/
def Notify.SendRaw (n : Notify) (message : RawMsg) : DispatchRawResult :=
  let r := sendRawLoop n.client n.notify message
  ⟨r.bindings, r.msgOut, r.reqs,
    if r.errs.isEmpty then none else some (NotifyError.joined r.errs)⟩

/-- Every binding's text-send issues exactly one outbound request. -/
theorem Binding.Send_reqs_length (client : Client) (message : String) (b : Binding) :
    (Binding.Send client message b).reqs.length = 1 := by
  cases b <;> rfl

/-- Every binding's raw-send issues exactly one outbound request. -/
theorem Binding.SendRaw_reqs_length (client : Client) (message : RawMsg) (b : Binding) :
    (Binding.SendRaw client message b).reqs.length = 1 := by
  cases b <;> simp [Binding.SendRaw]

/-- The text fan-out loop is the independent composition of the per-binding
sends: states and requests in registration order, errors filtered out. -/
theorem sendLoop_eq (client : Client) (message : String) (bs : List Binding) :
    sendLoop client message bs =
      ⟨bs.map (fun b => (Binding.Send client message b).st),
       (bs.map (fun b => (Binding.Send client message b).reqs)).flatten,
       bs.filterMap (fun b => (Binding.Send client message b).res)⟩ := by
  induction bs with
  | nil => rfl
  | cons b rest ih =>
      cases h : (Binding.Send client message b).res <;>
        simp [sendLoop, ih, List.filterMap_cons, h]

/-- The text fan-out loop issues one request per binding. -/
theorem sendLoop_reqs_length (client : Client) (message : String) (bs : List Binding) :
    (sendLoop client message bs).reqs.length = bs.length := by
  induction bs with
  | nil => rfl
  | cons b rest ih =>
      simp [sendLoop, Binding.Send_reqs_length, ih]
      omega

/-- The raw fan-out loop issues one request per binding. -/
theorem sendRawLoop_reqs_length (client : Client) (bs : List Binding) (m : RawMsg) :
    (sendRawLoop client bs m).reqs.length = bs.length := by
  induction bs generalizing m with
  | nil => rfl
  | cons b rest ih =>
      simp [sendRawLoop, Binding.SendRaw_reqs_length, ih]
      omega

/-- Counting the collected errors counts the failing bindings. -/
theorem length_filterMap_res (client : Client) (message : String) (bs : List Binding) :
    (bs.filterMap (fun b => (Binding.Send client message b).res)).length
      = bs.countP (fun b => ((Binding.Send client message b).res).isSome) := by
  induction bs with
  | nil => rfl
  | cons b rest ih =>
      cases h : (Binding.Send client message b).res <;>
        simp [List.filterMap_cons, h, List.countP_cons, ih]

/-- C1: for a dispatcher with registered bindings `bs` and a text message,
`Send` runs every binding's send in registration order (states and requests
compose from the independent per-binding sends, one outbound request per
binding, no short-circuit), and returns the join of the per-binding errors —
exactly one entry per failing binding — or nil when none failed. -/
theorem send_no_short_circuit_aggregates_failures
    (client : Client) (tok cid : String) (bs : List Binding) (message : String) :
    (Notify.Send ⟨client, tok, cid, bs⟩ (Msg.str message)).bindings
        = bs.map (fun b => (Binding.Send client message b).st)
    ∧ (Notify.Send ⟨client, tok, cid, bs⟩ (Msg.str message)).reqs
        = (bs.map (fun b => (Binding.Send client message b).reqs)).flatten
    ∧ (Notify.Send ⟨client, tok, cid, bs⟩ (Msg.str message)).reqs.length = bs.length
    ∧ (Notify.Send ⟨client, tok, cid, bs⟩ (Msg.str message)).result
        = (if (bs.filterMap (fun b => (Binding.Send client message b).res)).isEmpty
           then none
           else some (NotifyError.joined
                       (bs.filterMap (fun b => (Binding.Send client message b).res))))
    ∧ (bs.filterMap (fun b => (Binding.Send client message b).res)).length
        = bs.countP (fun b => ((Binding.Send client message b).res).isSome) := by
  have h := sendLoop_eq client message bs
  refine ⟨?_, ?_, ?_, ?_, length_filterMap_res client message bs⟩
  · show (sendLoop client message bs).bindings = _
    rw [h]
  · show (sendLoop client message bs).reqs = _
    rw [h]
  · exact sendLoop_reqs_length client message bs
  · show (if (sendLoop client message bs).errs.isEmpty = true then none
          else some (NotifyError.joined (sendLoop client message bs).errs)) = _
    rw [h]

/-- C8: dispatching a list of lines is literally the same as dispatching the
single string obtained by joining the lines with a newline (order preserved,
no trailing separator): every binding sees the same payload. -/
theorem send_join_law (n : Notify) (lines : List String) :
    n.Send (Msg.list lines) = n.Send (Msg.str (String.intercalate "\n" lines)) := rfl

/-- C9: a message shape outside the type switch (here: a number) makes `Send`
return the invalid-message error with zero outbound requests and all binding
states untouched. -/
theorem invalid_shape_rejected_before_dispatch (n : Notify) (z : Int) :
    (n.Send (Msg.int z)).result = some NotifyError.invalidMessage
    ∧ (n.Send (Msg.int z)).reqs = []
    ∧ (n.Send (Msg.int z)).bindings = n.notify :=
  ⟨rfl, rfl, rfl⟩

/-- C2 (counterexample): a 204 response to the telegram binding is a failure,
not a success — the source accepts only status 200. -/
theorem status_204_is_failure_counterexample :
    (Binding.Send (fun _ => some 204) "hi" (Binding.telegram "t" "c" "")).res
      = some (NotifyError.status "telegram" 204) := rfl

/-- C2 (amended): for the bindings implemented in the source (telegram, line,
discord), a response is a success exactly when its status is 200; any other
status — including 204 — yields a status error carrying the backend's API
name and the status code. -/
theorem only_status_200_is_success (b : Binding) (message : String) (s : Nat)
    (h : b.isWebhook = false) :
    (Binding.Send (fun _ => some s) message b).res
      = (if s = 200 then none else some (NotifyError.status b.api s)) := by
  cases b <;> simp_all [Binding.Send, Binding.isWebhook, Binding.api, doRequest]

/-- Witness for the amended C2 theorem at the telegram binding and a 404
response. -/
theorem only_status_200_is_success_witness :
    (Binding.Send (fun _ => some 404) "hi" (Binding.telegram "t" "c" "")).res
      = (if 404 = 200 then none
         else some (NotifyError.status (Binding.telegram "t" "c" "").api 404)) :=
  only_status_200_is_success (Binding.telegram "t" "c" "") "hi" 404 rfl

/-- C4: the webhook scenario (binding modelled from the spec, its
implementation being absent from the source files): a dispatcher with a
webhook binding to https://example.test/hook dispatches "hello" as exactly
one POST to that URL whose body is the content envelope and whose only
header is Content-Type (no auth header), and a 200 response yields overall
success. -/
theorem webhook_hello_scenario :
    (Notify.Send
        (Notify.DiscordWebhook ⟨fun _ => some 200, "", "", []⟩ "https://example.test/hook")
        (Msg.str "hello")).reqs
      = [{ method := "POST"
           url := "https://example.test/hook"
           headers := [("Content-Type", "application/json")]
           body := Json.obj [("content", Json.str "hello")] }]
    ∧ (Notify.Send
        (Notify.DiscordWebhook ⟨fun _ => some 200, "", "", []⟩ "https://example.test/hook")
        (Msg.str "hello")).result = none :=
  ⟨rfl, rfl⟩

/-- C6: telegram raw-send issues one request whose body is the payload map
itself, with the binding's configured chat id appended under the chat_id key
exactly when that key is absent; when the key is already present the map —
and hence the value it holds under chat_id — goes out unchanged. -/
theorem telegram_sendRaw_chat_id_insertion
    (client : Client) (tok cid txt : String) (m : RawMsg) :
    (Binding.SendRaw client m (Binding.telegram tok cid txt)).reqs
      = [{ method := "POST"
           url := "https://api.telegram.org/bot" ++ tok ++ "/sendMessage"
           headers := [("Content-Type", "application/json")]
           body := Json.obj (if (mapLookup m "chat_id").isSome then m
                             else m ++ [("chat_id", Json.str cid)]) }] := by
  cases h : mapLookup m "chat_id" <;> simp [Binding.SendRaw, h]

/-- C7: after two consecutive text sends on the same line binding instance,
the second request's messages array holds the first call's text entry
followed by the second's — each call appends to the accumulating array
rather than replacing it. -/
theorem line_messages_accumulate
    (client1 client2 : Client) (tok cid m1 m2 : String) :
    (Binding.Send client2 m2 (Binding.Send client1 m1 (Binding.line tok cid [])).st).reqs
      = [{ method := "POST"
           url := "https://api.line.me/v2/bot/message/push"
           headers := [("Content-Type", "application/json"),
                       ("Authorization", "Bearer " ++ tok)]
           body := Json.obj [("to", Json.str cid),
                             ("messages", Json.arr [lineText m1, lineText m2])] }] := rfl

/-- Appending a binding under key `a` leaves lookups of other keys alone. -/
theorem mapLookup_append_ne (m : RawMsg) (a k : String) (v : Json) (h : k ≠ a) :
    mapLookup (m ++ [(a, v)]) k = mapLookup m k := by
  induction m with
  | nil => simp [mapLookup, Ne.symm h]
  | cons p rest ih =>
      cases p with
      | mk k1 v1 => by_cases hk : k1 = k <;> simp [mapLookup, hk, ih]

/-- A single raw-send leaves every key other than chat_id of the shared
payload map unchanged. -/
theorem SendRaw_msgOut_lookup_ne (client : Client) (m : RawMsg) (b : Binding)
    (k : String) (hk : k ≠ "chat_id") :
    mapLookup (Binding.SendRaw client m b).msgOut k = mapLookup m k := by
  cases b with
  | telegram tok cid txt =>
      cases h : mapLookup m "chat_id" with
      | some v => simp [Binding.SendRaw, h]
      | none => simp [Binding.SendRaw, h, mapLookup_append_ne m "chat_id" k (Json.str cid) hk]
  | line tok cid msgs => rfl
  | discord tok cid content => rfl
  | discordWebhook url => rfl

/-- A single raw-send leaves the shared payload map entirely unchanged when
the chat_id key is already present. -/
theorem SendRaw_msgOut_of_isSome (client : Client) (m : RawMsg) (b : Binding)
    (h : (mapLookup m "chat_id").isSome) :
    (Binding.SendRaw client m b).msgOut = m := by
  cases b with
  | telegram tok cid txt =>
      cases hm : mapLookup m "chat_id" with
      | some v => simp [Binding.SendRaw, hm]
      | none => rw [hm] at h; cases h
  | line tok cid msgs => rfl
  | discord tok cid content => rfl
  | discordWebhook url => rfl

/-- The raw fan-out loop leaves every key other than chat_id of the shared
payload map unchanged. -/
theorem sendRawLoop_msgOut_lookup_ne (client : Client) (bs : List Binding) (m : RawMsg)
    (k : String) (hk : k ≠ "chat_id") :
    mapLookup (sendRawLoop client bs m).msgOut k = mapLookup m k := by
  induction bs generalizing m with
  | nil => rfl
  | cons b rest ih =>
      show mapLookup (sendRawLoop client rest (Binding.SendRaw client m b).msgOut).msgOut k
            = mapLookup m k
      rw [ih, SendRaw_msgOut_lookup_ne client m b k hk]

/-- The raw fan-out loop leaves the shared payload map entirely unchanged
when the chat_id key is already present. -/
theorem sendRawLoop_msgOut_of_isSome (client : Client) (bs : List Binding) (m : RawMsg)
    (h : (mapLookup m "chat_id").isSome) :
    (sendRawLoop client bs m).msgOut = m := by
  induction bs generalizing m with
  | nil => rfl
  | cons b rest ih =>
      show (sendRawLoop client rest (Binding.SendRaw client m b).msgOut).msgOut = m
      rw [SendRaw_msgOut_of_isSome client m b h]
      exact ih m h

/-- C3 (counterexample): with a telegram binding registered before a discord
binding, a raw dispatch of a payload lacking chat_id has the telegram binding
insert its chat id into the shared map, and the discord binding's outbound
body then carries that inserted key — a later binding observes a payload
modified by an earlier one, not the caller's payload verbatim. -/
theorem sendRaw_shared_map_mutation_counterexample :
    mapLookup [("text", Json.str "hi")] "chat_id" = none
    ∧ (Notify.SendRaw
         ⟨fun _ => some 200, "x", "y",
          [Binding.telegram "t" "cid" "", Binding.discord "d" "ch" ""]⟩
         [("text", Json.str "hi")]).reqs.map HttpRequest.body
        = [Json.obj [("text", Json.str "hi"), ("chat_id", Json.str "cid")],
           Json.obj [("text", Json.str "hi"), ("chat_id", Json.str "cid")]]
    ∧ Json.obj [("text", Json.str "hi"), ("chat_id", Json.str "cid")]
        ≠ Json.obj [("text", Json.str "hi")] := by
  refine ⟨rfl, rfl, ?_⟩
  simp

/-- C3 (amended): a raw dispatch passes the caller's payload through up to
the one mutation the variant-A (telegram) binding performs on the shared map:
no key other than chat_id is ever changed by the dispatcher or any binding,
and when the payload already carries chat_id the map is passed through
entirely unmodified; when chat_id is absent, the telegram binding's insertion
lands in the shared map and is therefore observed by the bindings that follow
it in the same dispatch. -/
theorem sendRaw_payload_preserved_outside_chat_id
    (n : Notify) (m : RawMsg) (k : String) (hk : k ≠ "chat_id") :
    mapLookup (n.SendRaw m).msgOut k = mapLookup m k
    ∧ ((mapLookup m "chat_id").isSome → (n.SendRaw m).msgOut = m) :=
  ⟨sendRawLoop_msgOut_lookup_ne n.client n.notify m k hk,
   fun h => sendRawLoop_msgOut_of_isSome n.client n.notify m h⟩

/-- Witness for the amended C3 theorem: a payload that already carries
chat_id passes through a telegram-then-discord dispatch unchanged. -/
theorem sendRaw_payload_preserved_outside_chat_id_witness :
    mapLookup
        (Notify.SendRaw
          ⟨fun _ => some 200, "x", "y",
           [Binding.telegram "t" "cid" "", Binding.discord "d" "ch" ""]⟩
          [("chat_id", Json.str "9"), ("text", Json.str "hi")]).msgOut "text"
      = mapLookup [("chat_id", Json.str "9"), ("text", Json.str "hi")] "text"
    ∧ ((mapLookup [("chat_id", Json.str "9"), ("text", Json.str "hi")] "chat_id").isSome →
        (Notify.SendRaw
          ⟨fun _ => some 200, "x", "y",
           [Binding.telegram "t" "cid" "", Binding.discord "d" "ch" ""]⟩
          [("chat_id", Json.str "9"), ("text", Json.str "hi")]).msgOut
          = [("chat_id", Json.str "9"), ("text", Json.str "hi")]) :=
  sendRaw_payload_preserved_outside_chat_id
    ⟨fun _ => some 200, "x", "y",
     [Binding.telegram "t" "cid" "", Binding.discord "d" "ch" ""]⟩
    [("chat_id", Json.str "9"), ("text", Json.str "hi")] "text" (by decide)

/-- C5 (counterexample): passing a structured payload to Send itself hits the
default branch of the type switch — it is rejected with the invalid-message
error and no binding's raw operation runs, contrary to the claim that `send`
dispatches structured payloads to each binding's raw operation. -/
theorem send_rejects_raw_payload_counterexample :
    (Notify.Send ⟨fun _ => some 200, "x", "y", [Binding.discord "d" "ch" ""]⟩
        (Msg.raw [("content", Json.str "hi")])).result
      = some NotifyError.invalidMessage
    ∧ (Notify.Send ⟨fun _ => some 200, "x", "y", [Binding.discord "d" "ch" ""]⟩
        (Msg.raw [("content", Json.str "hi")])).reqs = [] :=
  ⟨rfl, rfl⟩

/-- C5 (amended): structured payloads are dispatched through the separate
SendRaw entry point, which invokes every registered binding's raw operation
(one outbound request per binding); Send itself rejects a structured payload
with the invalid-message error before any binding is invoked. -/
theorem raw_dispatch_via_sendRaw (n : Notify) (m : RawMsg) :
    (n.SendRaw m).reqs.length = n.notify.length
    ∧ (n.Send (Msg.raw m)).result = some NotifyError.invalidMessage
    ∧ (n.Send (Msg.raw m)).reqs = []
    ∧ (n.Send (Msg.raw m)).bindings = n.notify :=
  ⟨sendRawLoop_reqs_length n.client n.notify m, rfl, rfl, rfl⟩

/-- C10: a failed line Send or SendRaw call (transport error or bad status)
does not roll back the message appended at the start of the call: the binding
state keeps it, so the next call's request body carries the failed call's
message before the new one. -/
theorem line_failed_message_persists
    (client clientB : Client) (tok cid : String) (ms : List Json)
    (message message2 : String) (m : RawMsg)
    (h : (Binding.Send client message (Binding.line tok cid ms)).res ≠ none)
    (h2 : (Binding.SendRaw client m (Binding.line tok cid ms)).res ≠ none) :
    (Binding.Send client message (Binding.line tok cid ms)).st
        = Binding.line tok cid (ms ++ [lineText message])
    ∧ (Binding.SendRaw client m (Binding.line tok cid ms)).st
        = Binding.line tok cid (ms ++ [Json.obj m])
    ∧ (Binding.Send clientB message2
         (Binding.Send client message (Binding.line tok cid ms)).st).reqs
        = [{ method := "POST"
             url := "https://api.line.me/v2/bot/message/push"
             headers := [("Content-Type", "application/json"),
                         ("Authorization", "Bearer " ++ tok)]
             body := Json.obj [("to", Json.str cid),
                               ("messages",
                                Json.arr (ms ++ [lineText message, lineText message2]))] }] := by
  refine ⟨rfl, rfl, ?_⟩
  simp [Binding.Send, List.append_assoc]

/-- Witness for C10: a transport-failing client still leaves the appended
message in the line binding's state, and the next (successful) call's body
carries both messages. -/
theorem line_failed_message_persists_witness :
    (Binding.Send (fun _ => none) "a" (Binding.line "tk" "cd" [])).st
        = Binding.line "tk" "cd" ([] ++ [lineText "a"])
    ∧ (Binding.SendRaw (fun _ => none) [("k", Json.str "v")] (Binding.line "tk" "cd" [])).st
        = Binding.line "tk" "cd" ([] ++ [Json.obj [("k", Json.str "v")]])
    ∧ (Binding.Send (fun _ => some 200) "b"
         (Binding.Send (fun _ => none) "a" (Binding.line "tk" "cd" [])).st).reqs
        = [{ method := "POST"
             url := "https://api.line.me/v2/bot/message/push"
             headers := [("Content-Type", "application/json"),
                         ("Authorization", "Bearer " ++ "tk")]
             body := Json.obj [("to", Json.str "cd"),
                               ("messages",
                                Json.arr ([] ++ [lineText "a", lineText "b"]))] }] :=
  line_failed_message_persists (fun _ => none) (fun _ => some 200) "tk" "cd" []
    "a" "b" [("k", Json.str "v")]
    (by simp [Binding.Send, doRequest])
    (by simp [Binding.SendRaw, doRequest])

end NotifyGo
